import Mathlib

/-!
Shallow embedding of the chat backend in `app.py`: the JSON value model,
the provider adapters (`get_youtube_video_url`, `get_spotify_track_url`,
`get_weather`), the command-dispatch loop of the `chat_api` route, and the
response assembly together with the history write.  Python exceptions are
modelled with `Except PyErr`; the wall clock and the remote services are
explicit parameters, so every definition is executable.
-/

/-- JSON values as produced by `json.loads` (numbers restricted to the
integers the claims exercise).  Objects are ordered key/value lists,
mirroring Python dict insertion order; `json.loads` never yields duplicate
keys. -/
inductive Json where
  | str (s : String)
  | num (n : Int)
  | bool (b : Bool)
  | null
  | arr (xs : List Json)
  | obj (l : List (String × Json))

/-- The Python exception classes the embedded code can raise. -/
inductive PyErr where
  | keyError
  | indexError
  | typeError
  | attributeError
  | integrityError
  | interfaceError
  | apiError
deriving DecidableEq

/-- Ordered association-list lookup: Python dict access by key. -/
def listLookup : List (String × Json) → String → Option Json
  | [], _ => none
  | (k', v) :: rest, k => if k' == k then some v else listLookup rest k

/-- `d.get(k)` on a dict value, `none` elsewhere (callers model the
`AttributeError` of calling `.get` on a non-dict separately). -/
def Json.lookup : Json → String → Option Json
  | .obj l, k => listLookup l k
  | _, _ => none

/-- `d[k] = v` on a dict: replace the value in place when the key exists,
else append the new pair at the end (Python dict assignment keeps
insertion order and the original key object). -/
def setPairs : List (String × Json) → String → Json → List (String × Json)
  | [], k, v => [(k, v)]
  | (k', v') :: rest, k, v =>
    if k' == k then (k', v) :: rest else (k', v') :: setPairs rest k v

/-- `final_response['instruction'] = final_instructions` style dict update. -/
def objSet : Json → String → Json → Json
  | .obj l, k, v => .obj (setPairs l k v)
  | j, _, _ => j

/-- Python truthiness of a JSON value. -/
def pyTruthy : Json → Bool
  | .null => false
  | .bool b => b
  | .num n => n != 0
  | .str s => s != ""
  | .arr xs => !xs.isEmpty
  | .obj l => !l.isEmpty

mutual

/-- Python `repr` of a JSON value (which is what `str` delegates to for
containers), as f-string interpolation renders non-string payloads. -/
def pyRepr : Json → String
  | .str s => "'" ++ s ++ "'"
  | .num n => toString n
  | .bool true => "True"
  | .bool false => "False"
  | .null => "None"
  | .arr xs => "[" ++ pyReprItems xs ++ "]"
  | .obj l => "\x7b" ++ pyReprEntries l ++ "\x7d"

/-- Comma-separated `repr`s of list elements. -/
def pyReprItems : List Json → String
  | [] => ""
  | [x] => pyRepr x
  | x :: xs => pyRepr x ++ ", " ++ pyReprItems xs

/-- Comma-separated `repr`s of dict entries. -/
def pyReprEntries : List (String × Json) → String
  | [] => ""
  | [(k, v)] => "'" ++ k ++ "': " ++ pyRepr v
  | (k, v) :: ps => "'" ++ k ++ "': " ++ pyRepr v ++ ", " ++ pyReprEntries ps

end

/-- Python `str()` as used by f-strings: identity on strings, `repr`-style
rendering otherwise. -/
def pyStr : Json → String
  | .str s => s
  | j => pyRepr j

/-- Python subscription `a[b]` for the shapes the code exercises: dict
lookup (`KeyError` when absent, `TypeError` on unhashable keys), list and
string indexing with negative indices (`IndexError` out of range),
`TypeError` otherwise. -/
def pySub : Json → Json → Except PyErr Json
  | .obj l, .str k =>
    match listLookup l k with
    | some v => .ok v
    | none => .error .keyError
  | .obj _, .arr _ => .error .typeError
  | .obj _, .obj _ => .error .typeError
  | .obj _, _ => .error .keyError
  | .arr xs, .num i =>
    let j : Int := if i < 0 then i + (xs.length : Int) else i
    if j < 0 then .error .indexError
    else
      match xs.get? j.toNat with
      | some x => .ok x
      | none => .error .indexError
  | .arr xs, .bool b =>
    match xs.get? (cond b 1 0) with
    | some x => .ok x
    | none => .error .indexError
  | .arr _, _ => .error .typeError
  | .str s, .num i =>
    let j : Int := if i < 0 then i + (s.length : Int) else i
    if j < 0 then .error .indexError
    else
      match s.toList.get? j.toNat with
      | some c => .ok (.str (String.singleton c))
      | none => .error .indexError
  | .str _, _ => .error .typeError
  | _, _ => .error .typeError

/-- Python iteration (`for x in v`): lists yield their elements, strings
yield one-character strings, dicts yield their keys; other values raise
`TypeError`. -/
def toIterable : Json → Except PyErr (List Json)
  | .arr xs => .ok xs
  | .str s => .ok (s.toList.map (fun c => .str (String.singleton c)))
  | .obj l => .ok (l.map (fun p => .str p.1))
  | _ => .error .typeError

/-- Binding `bot_response_text` into the SQLite `INSERT` against the
`bot_response TEXT NOT NULL` column: `None` violates NOT NULL
(`IntegrityError`), lists and dicts are not bindable (`InterfaceError`). -/
def bindParam : Json → Except PyErr Unit
  | .null => .error .integrityError
  | .str _ => .ok ()
  | .num _ => .ok ()
  | .bool _ => .ok ()
  | _ => .error .interfaceError

/-- Python `v == "lit"` of a JSON value against a string literal
(cross-type comparison is `False`). -/
def jeqStr : Json → String → Bool
  | .str s, t => s == t
  | _, _ => false

/-- `response_json.get("action") == "instruction"`: a missing key gives
`None`, which compares unequal. -/
def optJeqStr : Option Json → String → Bool
  | some j, t => jeqStr j t
  | none, _ => false

/-- One `datetime.now()` reading, with the pre-rendered locale names
`%A` and `%B` carried as fields. -/
structure DateTime where
  year : Nat
  monthNum : Nat
  day : Nat
  hour : Nat
  minute : Nat
  weekdayName : String
  monthName : String

/-- Zero-pad to two digits (`%I`, `%M`, `%d`, `%m`). -/
def pad2 (n : Nat) : String :=
  if n < 10 then "0" ++ toString n else toString n

/-- Zero-pad to four digits (`%Y`). -/
def pad4 (n : Nat) : String :=
  if n < 10 then "000" ++ toString n
  else if n < 100 then "00" ++ toString n
  else if n < 1000 then "0" ++ toString n
  else toString n

/-- `now.strftime("%I:%M %p")`: zero-padded 12-hour clock with AM/PM. -/
def fmtTime12 (t : DateTime) : String :=
  let h12 := if t.hour % 12 == 0 then 12 else t.hour % 12
  pad2 h12 ++ ":" ++ pad2 t.minute ++ " " ++ (if t.hour < 12 then "AM" else "PM")

/-- `now.strftime("%A, %B %d, %Y")`. -/
def fmtFullDate (t : DateTime) : String :=
  t.weekdayName ++ ", " ++ t.monthName ++ " " ++ pad2 t.day ++ ", " ++ pad4 t.year

/-- `now.strftime("%Y-%m-%d")`. -/
def fmtIsoDate (t : DateTime) : String :=
  pad4 t.year ++ "-" ++ pad2 t.monthNum ++ "-" ++ pad2 t.day

/-- The remote YouTube Data API as `get_youtube_video_url` sees it: whether
a key was configured, the raw `search().list(...).execute()` response for a
query, and the raw `videos().list(...).execute()` response for a
comma-joined id string; `.error` models the client call itself raising. -/
structure YouTubeEnv where
  configured : Bool
  search : Json → Except PyErr Json
  details : String → Except PyErr Json

/-- `[item['id']['videoId'] for item in ...]`. -/
def extractVideoIds : List Json → Except PyErr (List Json)
  | [] => .ok []
  | it :: rest => do
    let idObj ← pySub it (.str "id")
    let vid ← pySub idObj (.str "videoId")
    let more ← extractVideoIds rest
    .ok (vid :: more)

/-- `','.join(video_ids)` requires every element to be a `str`. -/
def strListOnly : List Json → Except PyErr (List String)
  | [] => .ok []
  | .str s :: rest => do
    let more ← strListOnly rest
    .ok (s :: more)
  | _ :: _ => .error .typeError

/-- The loop over the detail items looking for the first one whose
`item['status']['embeddable']` is truthy, yielding that `item['id']`. -/
def findEmbeddable : List Json → Except PyErr (Option Json)
  | [] => .ok none
  | it :: rest => do
    let st ← pySub it (.str "status")
    let emb ← pySub st (.str "embeddable")
    if pyTruthy emb then
      let vid ← pySub it (.str "id")
      .ok (some vid)
    else
      findEmbeddable rest

/-- `resp.get('items', [])` — `AttributeError` unless the response is a
dict. -/
def getItemsDefault (j : Json) : Except PyErr Json :=
  match j with
  | .obj _ => .ok ((j.lookup "items").getD (.arr []))
  | _ => .error .attributeError

/-- The body of the `try:` block of `get_youtube_video_url`
(app.py lines 129-154). -/
def ytTry (env : YouTubeEnv) (term : Json) : Except PyErr (Option String × String) := do
  let sr ← env.search term
  let itemsJ ← getItemsDefault sr
  let items ← toIterable itemsJ
  let vidsJ ← extractVideoIds items
  if vidsJ.isEmpty then
    .ok (none, "I couldn't find any YouTube videos for '" ++ pyStr term ++ "'.")
  else
    let ids ← strListOnly vidsJ
    let dr ← env.details (String.intercalate "," ids)
    let dItemsJ ← getItemsDefault dr
    let dItems ← toIterable dItemsJ
    let found ← findEmbeddable dItems
    match found with
    | some vid =>
      .ok (some ("https://www.youtube.com/embed/" ++ pyStr vid),
           "Playing the top result for '" ++ pyStr term ++ "' on YouTube.")
    | none =>
      .ok (none, "Sorry, I found videos for '" ++ pyStr term ++
           "', but none of them can be played here.")

/-- `get_youtube_video_url` (app.py lines 125-158): a missing API key
short-circuits, and any exception inside the `try:` collapses to the
fallback sentence via `except Exception` — the adapter itself never
raises. -/
def get_youtube_video_url (env : YouTubeEnv) (term : Json) : Option String × String :=
  if !env.configured then
    (none, "YouTube API is not configured.")
  else
    match ytTry env term with
    | .ok r => r
    | .error _ =>
      (none, "Sorry, I couldn't find a video for '" ++ pyStr term ++ "' on YouTube.")

/-- The Spotify client as `get_spotify_track_url` sees it. -/
structure SpotifyEnv where
  configured : Bool
  search : Json → Except PyErr Json

/-- The body of the `try:` block of `get_spotify_track_url`
(app.py lines 165-174), including the `if not results or not
results['tracks']['items']` guard. -/
def spTry (env : SpotifyEnv) (term : Json) : Except PyErr (Option String × String) := do
  let results ← env.search term
  if !pyTruthy results then
    .ok (none, "Sorry, I couldn't find the song '" ++ pyStr term ++ "' on Spotify.")
  else
    let tracks ← pySub results (.str "tracks")
    let items ← pySub tracks (.str "items")
    if !pyTruthy items then
      .ok (none, "Sorry, I couldn't find the song '" ++ pyStr term ++ "' on Spotify.")
    else
      let track ← pySub items (.num 0)
      let tid ← pySub track (.str "id")
      let tname ← pySub track (.str "name")
      .ok (some ("https://open.spotify.com/embed/track/" ++ pyStr tid),
           "Playing '" ++ pyStr tname ++ "' on Spotify.")

/-- `get_spotify_track_url` (app.py lines 161-177): never raises, every
failure inside the `try:` collapses to the fallback sentence. -/
def get_spotify_track_url (env : SpotifyEnv) (term : Json) : Option String × String :=
  if !env.configured then
    (none, "Spotify API is not configured.")
  else
    match spTry env term with
    | .ok r => r
    | .error _ =>
      (none, "Sorry, I couldn't play '" ++ pyStr term ++ "' on Spotify.")

/-- Outcome of `requests.get(...)`, `raise_for_status()` and `.json()`:
either a `RequestException` was raised (network failure, HTTP error
status, or an unparsable body with modern `requests`), or a decoded JSON
body. -/
inductive WeatherHttp where
  | failure
  | success (body : Json)

/-- `get_weather` (app.py lines 180-196).  The handlers catch only
`RequestException` and `KeyError`; any other exception raised while
digging into the body — such as `IndexError` when the `weather` key holds
an empty list — escapes to the caller, hence the `Except` result type. -/
def get_weather (configured : Bool) (fetch : Json → WeatherHttp) (city : Json) :
    Except PyErr String :=
  if !configured then
    .ok "Weather API key is not configured."
  else
    match fetch city with
    | .failure => .ok ("Sorry, I couldn't fetch the weather for " ++ pyStr city ++ ".")
    | .success data =>
      match (do
        let w ← pySub data (.str "weather")
        let w0 ← pySub w (.num 0)
        let desc ← pySub w0 (.str "description")
        let mainObj ← pySub data (.str "main")
        let temp ← pySub mainObj (.str "temp")
        pure ("The weather in " ++ pyStr city ++ " is currently " ++ pyStr desc ++
              " with a temperature of " ++ pyStr temp ++ "Â°C.") :
        Except PyErr String) with
      | .ok m => .ok m
      | .error .keyError =>
        .ok ("Sorry, I couldn't find weather data for " ++ pyStr city ++ ".")
      | .error e => .error e

/-- Everything external a single `chat_api` request reads: provider
clients and the wall clock. -/
structure Env where
  yt : YouTubeEnv
  sp : SpotifyEnv
  weatherConfigured : Bool
  weatherFetch : Json → WeatherHttp
  clock : DateTime

/-- `if url:` on an adapter's first component — a missing or empty string
is falsy. -/
def urlTruthy : Option String → Bool
  | none => false
  | some s => s != ""

/-- One iteration of the command loop of `chat_api` (app.py lines
298-322): the contribution of a single list element to
`confirmation_speech` and `final_instructions`.  `list(instr.keys())[0]`
raises `IndexError` on an empty dict and `AttributeError` on a non-dict;
`value = instr[command]` is the first key's value (`json.loads` never
yields duplicate keys). -/
def dispatchOne (env : Env) : Json → Except PyErr (List String × List Json)
  | .obj [] => .error .indexError
  | .obj ((command, value) :: rest) =>
    if command == "get_time" then
      .ok (["The current time is " ++ fmtTime12 env.clock ++ "."], [])
    else if command == "get_date" then
      if jeqStr value "full_date" then
        .ok (["Today is " ++ fmtFullDate env.clock ++ "."], [])
      else if jeqStr value "year" then
        .ok (["The current year is " ++ toString env.clock.year ++ "."], [])
      else if jeqStr value "last_year" then
        .ok (["Last year was " ++ toString (env.clock.year - 1) ++ "."], [])
      else
        .ok (["The date today is " ++ fmtIsoDate env.clock ++ "."], [])
    else if command == "get_weather" then
      match get_weather env.weatherConfigured env.weatherFetch value with
      | .error e => .error e
      | .ok m => .ok ([m], [])
    else if command == "play_youtube_direct" then
      let r := get_youtube_video_url env.yt value
      .ok ([r.2], if urlTruthy r.1 then [.obj [("open_url", .str (r.1.getD ""))]] else [])
    else if command == "play_spotify_direct" then
      let r := get_spotify_track_url env.sp value
      .ok ([r.2], if urlTruthy r.1 then [.obj [("open_url", .str (r.1.getD ""))]] else [])
    else
      .ok ([], [.obj ((command, value) :: rest)])
  | _ => .error .attributeError

/-- The whole `for instr in response_json.get("instruction", [])` loop:
per-element contributions concatenated in input order, stopping at the
first raised exception. -/
def dispatch (env : Env) : List Json → Except PyErr (List String × List Json)
  | [] => .ok ([], [])
  | i :: rest =>
    match dispatchOne env i with
    | .error e => .error e
    | .ok r =>
      match dispatch env rest with
      | .error e => .error e
      | .ok r' => .ok (r.1 ++ r'.1, r.2 ++ r'.2)

/-- The confirmation sentence a single command list element contributes
when its dispatch step succeeds, read off `dispatchOne` (each element
appends at most one sentence). -/
def confOf (env : Env) (i : Json) : Option String :=
  match dispatchOne env i with
  | .ok r => r.1.head?
  | .error _ => none

/-- The client instruction a single command list element contributes when
its dispatch step succeeds (each element appends at most one). -/
def instOf (env : Env) (i : Json) : Option Json :=
  match dispatchOne env i with
  | .ok r => r.2.head?
  | .error _ => none

/-- app.py lines 324-333: build `final_response` and `bot_response_text`
from the raw decoded object and the loop accumulators.  With at least one
confirmation a fresh three-key object is built; otherwise the raw object
itself is reused with its `instruction` key overwritten, and
`bot_response_text` falls back to `"Executing instruction."` only when
that object has no `speech` key. -/
def assemble (rawJson : Json) (confs : List String) (insts : List Json) : Json × Json :=
  if confs.isEmpty then
    let resp := objSet rawJson "instruction" (.arr insts)
    (resp, (resp.lookup "speech").getD (.str "Executing instruction."))
  else
    (.obj [("action", .str "instruction_and_conversation"),
           ("speech", .str (String.intercalate " " confs)),
           ("instruction", .arr insts)],
     .str (String.intercalate " " confs))

/-- app.py lines 293-343: from the decoded model JSON to the response
object and the `bot_response` value inserted into history.  Any Python
exception surfaces as `.error` and is caught by the route's
`except Exception` handler; the history insert happens before the return
and can itself raise on unbindable values. -/
def chatProcess (env : Env) (j : Json) : Except PyErr (Json × Json) :=
  match j with
  | .obj _ =>
    if optJeqStr (j.lookup "action") "instruction" then
      match toIterable ((j.lookup "instruction").getD (.arr [])) with
      | .error e => .error e
      | .ok items =>
        match dispatch env items with
        | .error e => .error e
        | .ok r =>
          let a := assemble j r.1 r.2
          match bindParam a.2 with
          | .error e => .error e
          | .ok _ => .ok a
    else
      match bindParam ((j.lookup "speech").getD .null) with
      | .error e => .error e
      | .ok _ => .ok (j, (j.lookup "speech").getD .null)
  | _ => .error .attributeError

/-- One HTTP outcome of the `/api/chat` route: the JSON body, the status
code, and the `bot_response` value appended to history this turn (if a
row was written at all). -/
structure ChatOutcome where
  response : Json
  status : Nat
  historyBot : Option Json

/-- The fixed reply of the `except json.JSONDecodeError` handler
(app.py line 347). -/
def troubleReply : Json :=
  .obj [("action", .str "conversation"),
        ("speech", .str "I'm having a little trouble understanding. Could you rephrase that?")]

/-- The fixed reply of the `except Exception` handler (app.py line 350). -/
def unexpectedReply : Json :=
  .obj [("action", .str "conversation"),
        ("speech", .str "I'm sorry, an unexpected error occurred. Please try again.")]

/-- app.py lines 290-352 after the model call: `decoded` is the outcome of
`json.loads` on the fence-stripped model text. -/
def chatApi (env : Env) (decoded : Except Unit Json) : ChatOutcome :=
  match decoded with
  | .error _ => ⟨troubleReply, 500, none⟩
  | .ok j =>
    match chatProcess env j with
    | .ok r => ⟨r.1, 200, some r.2⟩
    | .error _ => ⟨unexpectedReply, 500, none⟩

/-- app.py line 290: `response.text.strip().replace('```json', '').replace('```', '')`. -/
def stripFences (s : String) : String :=
  (s.trim.replace "```json" "").replace "```" ""

/-- The full post-model pipeline, with `loads` standing for `json.loads`. -/
def chatApiFromRaw (env : Env) (loads : String → Except Unit Json) (raw : String) :
    ChatOutcome :=
  chatApi env (loads (stripFences raw))

/-- The command names `chat_api` executes server-side; anything else is
passed through untouched. -/
def isKnownCommand (k : String) : Bool :=
  k == "get_time" || k == "get_date" || k == "get_weather" ||
  k == "play_youtube_direct" || k == "play_spotify_direct"

/-- A concrete YouTube environment whose search finds nothing. -/
def ytEmpty : YouTubeEnv where
  configured := true
  search := fun _ => .ok (.obj [("items", .arr [])])
  details := fun _ => .error .apiError

/-- A concrete Spotify environment that is not configured. -/
def spOff : SpotifyEnv where
  configured := false
  search := fun _ => .error .apiError

/-- 14:05 on Sunday, October 12, 2025. -/
def clock0 : DateTime where
  year := 2025
  monthNum := 10
  day := 12
  hour := 14
  minute := 5
  weekdayName := "Sunday"
  monthName := "October"

/-- A concrete environment for closed evaluations. -/
def env0 : Env where
  yt := ytEmpty
  sp := spOff
  weatherConfigured := false
  weatherFetch := fun _ => .failure
  clock := clock0

/-- A weather-API body whose `weather` key holds an empty list. -/
def emptyWeatherBody : Json :=
  .obj [("weather", .arr []), ("main", .obj [("temp", .num 20)])]

/-- `env0` with the weather API configured and always answering with
`emptyWeatherBody`. -/
def envWeatherEmptyList : Env :=
  { env0 with
      weatherConfigured := true
      weatherFetch := fun _ => .success emptyWeatherBody }

/-- A concrete YouTube environment that finds one embeddable video. -/
def ytFound : YouTubeEnv where
  configured := true
  search := fun _ => .ok (.obj [("items", .arr [.obj [("id", .obj [("videoId", .str "abc123")])]])])
  details := fun _ => .ok (.obj [("items", .arr
    [.obj [("status", .obj [("embeddable", .bool true)]), ("id", .str "abc123")]])])

/-- A concrete Spotify environment that finds one track. -/
def spFound : SpotifyEnv where
  configured := true
  search := fun _ => .ok (.obj [("tracks", .obj [("items", .arr
    [.obj [("id", .str "t1"), ("name", .str "Song")]])])])

/-- `env0` with providers that succeed. -/
def envFull : Env where
  yt := ytFound
  sp := spFound
  weatherConfigured := false
  weatherFetch := fun _ => .failure
  clock := clock0

/-! ## Helper lemmas -/

theorem intercalate_single (m : String) : String.intercalate " " [m] = m := rfl

theorem listLookup_setPairs_ne (l : List (String × Json)) (kset klook : String) (v : Json)
    (h : (kset == klook) = false) :
    listLookup (setPairs l kset v) klook = listLookup l klook := by
  induction l with
  | nil => simp [setPairs, listLookup, h]
  | cons p rest ih =>
    obtain ⟨k', v'⟩ := p
    by_cases hk : (k' == kset) = true
    · have hkl : (k' == klook) = false := by
        rw [beq_iff_eq] at hk; subst hk; exact h
      simp [setPairs, listLookup, hk, hkl]
    · have hk' : (k' == kset) = false := by simpa using hk
      simp only [setPairs, hk', Bool.false_eq_true, if_false, listLookup]
      split
      · rfl
      · exact ih

theorem dispatch_append (env : Env) (xs ys : List Json)
    (a b : List String × List Json)
    (hxs : dispatch env xs = .ok a) (hys : dispatch env ys = .ok b) :
    dispatch env (xs ++ ys) = .ok (a.1 ++ b.1, a.2 ++ b.2) := by
  induction xs generalizing a with
  | nil =>
    simp only [dispatch] at hxs
    cases hxs
    simpa using hys
  | cons i rest ih =>
    simp only [dispatch] at hxs ⊢
    cases h1 : dispatchOne env i with
    | error e => rw [h1] at hxs; cases hxs
    | ok r =>
      rw [h1] at hxs
      cases h2 : dispatch env rest with
      | error e => rw [h2] at hxs; cases hxs
      | ok r' =>
        rw [h2] at hxs
        cases hxs
        simp [dispatch, h1, ih r' h2, List.append_assoc]

theorem dispatchOne_lengths (env : Env) (i : Json) (r : List String × List Json)
    (h : dispatchOne env i = .ok r) : r.1.length ≤ 1 ∧ r.2.length ≤ 1 := by
  cases i with
  | obj l =>
    cases l with
    | nil => simp [dispatchOne] at h
    | cons p rest =>
      obtain ⟨k, v⟩ := p
      unfold dispatchOne at h
      repeat' split at h
      all_goals (try (cases h))
      all_goals (constructor <;> (first | (split <;> simp) | simp))
  | str s => simp [dispatchOne] at h
  | num n => simp [dispatchOne] at h
  | bool b => simp [dispatchOne] at h
  | null => simp [dispatchOne] at h
  | arr xs => simp [dispatchOne] at h

theorem head_toList_of_len_le_one {α : Type} (l : List α) (h : l.length ≤ 1) :
    l = l.head?.toList := by
  cases l with
  | nil => rfl
  | cons a t =>
    cases t with
    | nil => rfl
    | cons b t' => simp at h

theorem dispatchOne_unknown (env : Env) (k : String) (v : Json)
    (rest : List (String × Json)) (hk : isKnownCommand k = false) :
    dispatchOne env (.obj ((k, v) :: rest)) = .ok ([], [.obj ((k, v) :: rest)]) := by
  simp only [isKnownCommand, Bool.or_eq_false_iff] at hk
  obtain ⟨⟨⟨⟨h1, h2⟩, h3⟩, h4⟩, h5⟩ := hk
  simp [dispatchOne, h1, h2, h3, h4, h5]

theorem ytTry_url_ne_empty (e : YouTubeEnv) (t : Json) (u m : String)
    (h : ytTry e t = .ok (some u, m)) : (u == "") = false := by
  unfold ytTry at h
  simp only [bind, Except.bind, pure, Except.pure] at h
  repeat' split at h
  all_goals (try (cases h))
  all_goals simp_all
  all_goals simp [String.ext_iff]

theorem yt_url_ne_empty (e : YouTubeEnv) (t : Json) (u m : String)
    (h : get_youtube_video_url e t = (some u, m)) : (u == "") = false := by
  unfold get_youtube_video_url at h
  split at h
  · cases h
  · split at h
    · next r heq => exact ytTry_url_ne_empty e t u m (by rw [heq, h])
    · cases h

theorem spTry_url_ne_empty (e : SpotifyEnv) (t : Json) (u m : String)
    (h : spTry e t = .ok (some u, m)) : (u == "") = false := by
  unfold spTry at h
  simp only [bind, Except.bind, pure, Except.pure] at h
  repeat' split at h
  all_goals (try (cases h))
  all_goals simp_all
  all_goals simp [String.ext_iff]

theorem sp_url_ne_empty (e : SpotifyEnv) (t : Json) (u m : String)
    (h : get_spotify_track_url e t = (some u, m)) : (u == "") = false := by
  unfold get_spotify_track_url at h
  split at h
  · cases h
  · split at h
    · next r heq => exact spTry_url_ne_empty e t u m (by rw [heq, h])
    · cases h

theorem dispatchOne_yt_eq (env : Env) (v : Json) (rest : List (String × Json)) :
    dispatchOne env (.obj (("play_youtube_direct", v) :: rest)) =
      .ok ([(get_youtube_video_url env.yt v).2],
           if urlTruthy (get_youtube_video_url env.yt v).1 then
             [.obj [("open_url", .str ((get_youtube_video_url env.yt v).1.getD ""))]]
           else []) := rfl

theorem dispatchOne_sp_eq (env : Env) (v : Json) (rest : List (String × Json)) :
    dispatchOne env (.obj (("play_spotify_direct", v) :: rest)) =
      .ok ([(get_spotify_track_url env.sp v).2],
           if urlTruthy (get_spotify_track_url env.sp v).1 then
             [.obj [("open_url", .str ((get_spotify_track_url env.sp v).1.getD ""))]]
           else []) := rfl

/-! ## C1 -/

/-- C1, as stated, fails on the code: the decoded object
`\x7b"action": "instruction"\x7d` has `action="instruction"` but no
`instruction` list, yet `chat_api` does not produce any parse-error reply:
it processes the request normally with an empty command list, answers with
HTTP 200, and writes `"Executing instruction."` to history. -/
theorem c1_as_stated_fails :
    chatApi env0 (.ok (.obj [("action", .str "instruction")])) =
      ⟨.obj [("action", .str "instruction"), ("instruction", .arr [])], 200,
       some (.str "Executing instruction.")⟩ := rfl

/-- C1 amended: there is no `UnknownShape` parse error.  (i) A decoded
object whose `action` is not the string `"instruction"` is handled as a
conversation response: returned unchanged with HTTP 200 and its `speech`
string written to history; (ii) when such an object has no `speech` key
the history insert itself fails and the request degrades to the generic
unexpected-error apology with status 500 and no history row; an object
with `action="instruction"` but no `instruction` key is processed with an
empty command list: the raw object is returned with `instruction=[]`
added and HTTP 200, with history text `"Executing instruction."` when the
object has no `speech` key (iii), or its `speech` string when it has one
(iv). -/
theorem c1_amended_no_unknown_shape :
    (∀ (env : Env) (o : List (String × Json)) (s : String),
      optJeqStr ((Json.obj o).lookup "action") "instruction" = false →
      (Json.obj o).lookup "speech" = some (.str s) →
      chatApi env (.ok (.obj o)) = ⟨.obj o, 200, some (.str s)⟩) ∧
    (∀ (env : Env) (o : List (String × Json)),
      optJeqStr ((Json.obj o).lookup "action") "instruction" = false →
      (Json.obj o).lookup "speech" = none →
      chatApi env (.ok (.obj o)) = ⟨unexpectedReply, 500, none⟩) ∧
    (∀ (env : Env) (o : List (String × Json)),
      (Json.obj o).lookup "action" = some (.str "instruction") →
      (Json.obj o).lookup "instruction" = none →
      (Json.obj o).lookup "speech" = none →
      chatApi env (.ok (.obj o)) =
        ⟨objSet (.obj o) "instruction" (.arr []), 200,
         some (.str "Executing instruction.")⟩) ∧
    (∀ (env : Env) (o : List (String × Json)) (s : String),
      (Json.obj o).lookup "action" = some (.str "instruction") →
      (Json.obj o).lookup "instruction" = none →
      (Json.obj o).lookup "speech" = some (.str s) →
      chatApi env (.ok (.obj o)) =
        ⟨objSet (.obj o) "instruction" (.arr []), 200, some (.str s)⟩) := by
  refine ⟨?_, ?_, ?_, ?_⟩
  · intro env o s h1 h2
    simp [chatApi, chatProcess, h1, h2, bindParam]
  · intro env o h1 h2
    simp [chatApi, chatProcess, h1, h2, bindParam]
  · intro env o h1 h2 h3
    have hcond : optJeqStr ((Json.obj o).lookup "action") "instruction" = true := by
      rw [h1]; rfl
    have hsp : (objSet (.obj o) "instruction" (.arr [])).lookup "speech" = none := by
      simp only [objSet, Json.lookup]
      rw [listLookup_setPairs_ne o "instruction" "speech" (.arr []) rfl]
      simpa [Json.lookup] using h3
    simp [chatApi, chatProcess, hcond, h2, toIterable, dispatch, assemble, hsp, bindParam]
  · intro env o s h1 h2 h3
    have hcond : optJeqStr ((Json.obj o).lookup "action") "instruction" = true := by
      rw [h1]; rfl
    have hsp : (objSet (.obj o) "instruction" (.arr [])).lookup "speech" =
        some (.str s) := by
      simp only [objSet, Json.lookup]
      rw [listLookup_setPairs_ne o "instruction" "speech" (.arr []) rfl]
      simpa [Json.lookup] using h3
    simp [chatApi, chatProcess, hcond, h2, toIterable, dispatch, assemble, hsp, bindParam]

/-- Concrete instantiation of `c1_amended_no_unknown_shape`: a
conversation-shaped object with no action, one with an unrecognized
action and no speech, an instruction-shaped object with no instruction
list and no speech, and one with no instruction list but a stray speech
(whose value, not "Executing instruction.", reaches history). -/
theorem c1_amended_no_unknown_shape_witness :
    chatApi env0 (.ok (.obj [("speech", .str "hello")])) =
      ⟨.obj [("speech", .str "hello")], 200, some (.str "hello")⟩ ∧
    chatApi env0 (.ok (.obj [("action", .str "banana")])) = ⟨unexpectedReply, 500, none⟩ ∧
    chatApi env0 (.ok (.obj [("action", .str "instruction")])) =
      ⟨.obj [("action", .str "instruction"), ("instruction", .arr [])], 200,
       some (.str "Executing instruction.")⟩ ∧
    chatApi env0 (.ok (.obj [("action", .str "instruction"), ("speech", .str "hi")])) =
      ⟨.obj [("action", .str "instruction"), ("speech", .str "hi"),
             ("instruction", .arr [])], 200, some (.str "hi")⟩ :=
  ⟨c1_amended_no_unknown_shape.1 env0 [("speech", .str "hello")] "hello" rfl rfl,
   c1_amended_no_unknown_shape.2.1 env0 [("action", .str "banana")] rfl rfl,
   c1_amended_no_unknown_shape.2.2.1 env0 [("action", .str "instruction")] rfl rfl rfl,
   c1_amended_no_unknown_shape.2.2.2 env0
     [("action", .str "instruction"), ("speech", .str "hi")] "hi" rfl rfl rfl⟩

/-! ## C2 -/

/-- C2, as stated, fails on the code: a command list containing one
empty-object element followed by a well-formed `open_website` command does
not parse the remaining element — `list(instr.keys())[0]` raises
`IndexError`, the whole request aborts into the generic apology with
status 500, and nothing is passed through. -/
theorem c2_as_stated_fails :
    chatApi env0 (.ok (.obj [("action", .str "instruction"),
        ("instruction", .arr [.obj [], .obj [("open_website", .str "wikipedia")]])])) =
      ⟨unexpectedReply, 500, none⟩ := rfl

/-- C2 amended: an element that is a nonempty object whose first key is
not a recognized command name is passed through raw and unexecuted, and
such an element never disturbs the other elements — dispatching any list
around it just splices `([], [element])` into the accumulated results.
(The unrestricted claim is false: an element that is an empty object, or
not an object at all, raises and aborts the entire request.) -/
theorem c2_amended_unknown_passthrough (env : Env) (k : String) (v : Json)
    (rest : List (String × Json)) (xs ys : List Json)
    (a b : List String × List Json)
    (hk : isKnownCommand k = false)
    (hxs : dispatch env xs = .ok a) (hys : dispatch env ys = .ok b) :
    dispatch env (xs ++ .obj ((k, v) :: rest) :: ys) =
      .ok (a.1 ++ b.1, a.2 ++ .obj ((k, v) :: rest) :: b.2) := by
  have hu := dispatchOne_unknown env k v rest hk
  have hmid : dispatch env (.obj ((k, v) :: rest) :: ys) =
      .ok (b.1, .obj ((k, v) :: rest) :: b.2) := by
    simp [dispatch, hu, hys]
  have := dispatch_append env xs (.obj ((k, v) :: rest) :: ys) a
    (b.1, .obj ((k, v) :: rest) :: b.2) hxs hmid
  simpa using this

/-- Concrete instantiation of `c2_amended_unknown_passthrough`: four
well-formed commands and one unrecognized object dispatch to four typed
results plus the unknown object passed through. -/
theorem c2_amended_unknown_passthrough_witness :
    dispatch env0 [.obj [("get_time", .str "current")], .obj [("get_date", .str "year")],
        .obj [("frobnicate", .str "x")], .obj [("open_website", .str "wikipedia")],
        .obj [("search_google", .str "cats")]] =
      .ok (["The current time is 02:05 PM.", "The current year is 2025."],
           [.obj [("frobnicate", .str "x")], .obj [("open_website", .str "wikipedia")],
            .obj [("search_google", .str "cats")]]) := by
  have h := c2_amended_unknown_passthrough env0 "frobnicate" (.str "x") []
    [.obj [("get_time", .str "current")], .obj [("get_date", .str "year")]]
    [.obj [("open_website", .str "wikipedia")], .obj [("search_google", .str "cats")]]
    (["The current time is 02:05 PM.", "The current year is 2025."], [])
    ([], [.obj [("open_website", .str "wikipedia")], .obj [("search_google", .str "cats")]])
    rfl rfl rfl
  simpa using h

/-! ## C3 -/

/-- C3 names a real code bug in `get_weather`: its handlers catch only
`RequestException` and `KeyError`, so a successful API answer whose
`weather` field is an empty list makes `data['weather'][0]` raise an
uncaught `IndexError` — the adapter raises instead of returning a
fallback sentence, and inside a batch the uncaught exception aborts the
remaining commands (here a following `get_time`), turning the whole
request into the generic apology with no history write.  (VideoSearch and
MusicSearch, by contrast, catch all exceptions.) -/
theorem c3_weather_adapter_raises :
    get_weather true (fun _ => .success emptyWeatherBody) (.str "paris") =
      .error .indexError ∧
    chatApi envWeatherEmptyList (.ok (.obj [("action", .str "instruction"),
        ("instruction", .arr [.obj [("get_weather", .str "paris")],
                              .obj [("get_time", .str "current")]])])) =
      ⟨unexpectedReply, 500, none⟩ :=
  ⟨rfl, rfl⟩

/-! ## C4 -/

/-- C4, as stated, fails on the code: a decoded instruction object that
carries a stray `speech` key reaches the zero-confirmation branch, where
`final_response = response_json` preserves that key — the outgoing object
is not exactly `\x7baction, instruction\x7d`, and the history text is the stray
speech value `"hi"`, not `"Executing instruction."`. -/
theorem c4_as_stated_fails :
    chatApi env0 (.ok (.obj [("action", .str "instruction"), ("speech", .str "hi"),
        ("instruction", .arr [.obj [("open_website", .str "wikipedia")]])])) =
      ⟨.obj [("action", .str "instruction"), ("speech", .str "hi"),
             ("instruction", .arr [.obj [("open_website", .str "wikipedia")]])], 200,
       some (.str "hi")⟩ := rfl

/-- C4 amended: when the decoded object has exactly the keys `action` and
`instruction` (in particular no stray `speech`), an Instruction whose
dispatch yields zero confirmations produces exactly
`\x7baction: instruction, instruction: dispatch.instructions\x7d` with no speech
key, and the history text is the literal `"Executing instruction."`. -/
theorem c4_amended_zero_confirmations (env : Env) (instrVal : Json)
    (items : List Json) (insts : List Json)
    (hit : toIterable instrVal = .ok items)
    (hdisp : dispatch env items = .ok ([], insts)) :
    chatApi env (.ok (.obj [("action", .str "instruction"), ("instruction", instrVal)])) =
      ⟨.obj [("action", .str "instruction"), ("instruction", .arr insts)], 200,
       some (.str "Executing instruction.")⟩ := by
  simp [chatApi, chatProcess, Json.lookup, listLookup, optJeqStr, jeqStr, hit, hdisp,
        assemble, objSet, setPairs, bindParam]

/-- Concrete instantiation of `c4_amended_zero_confirmations`: the
`open_website` scenario of the claim. -/
theorem c4_amended_zero_confirmations_witness :
    chatApi env0 (.ok (.obj [("action", .str "instruction"),
        ("instruction", .arr [.obj [("open_website", .str "wikipedia")]])])) =
      ⟨.obj [("action", .str "instruction"),
             ("instruction", .arr [.obj [("open_website", .str "wikipedia")]])], 200,
       some (.str "Executing instruction.")⟩ :=
  c4_amended_zero_confirmations env0 (.arr [.obj [("open_website", .str "wikipedia")]])
    [.obj [("open_website", .str "wikipedia")]]
    [.obj [("open_website", .str "wikipedia")]] rfl rfl

/-! ## C5 -/

/-- C5: when the fence-stripped model text is not valid JSON, the route
answers the fixed "trouble understanding" conversational apology with
status 500 and appends no history row; and when any exception escapes the
processing of a decoded response, the route answers the fixed generic
apology with status 500 and appends no history row. -/
theorem c5_no_history_on_failure :
    (∀ (env : Env) (loads : String → Except Unit Json) (raw : String),
      loads (stripFences raw) = .error () →
      chatApiFromRaw env loads raw = ⟨troubleReply, 500, none⟩) ∧
    (∀ (env : Env) (j : Json) (e : PyErr),
      chatProcess env j = .error e →
      chatApi env (.ok j) = ⟨unexpectedReply, 500, none⟩) := by
  constructor
  · intro env loads raw h
    simp [chatApiFromRaw, chatApi, h]
  · intro env j e h
    simp [chatApi, h]

/-- Concrete instantiation of `c5_no_history_on_failure`: the truncated
model text of the claim's scenario, and a decoded non-object response
whose processing raises. -/
theorem c5_no_history_on_failure_witness :
    chatApiFromRaw env0 (fun _ => .error ()) "Sure! \x7b\"action\":\"conversation\"" =
      ⟨troubleReply, 500, none⟩ ∧
    chatApi env0 (.ok (.num 5)) = ⟨unexpectedReply, 500, none⟩ :=
  ⟨c5_no_history_on_failure.1 env0 (fun _ => .error ())
      "Sure! \x7b\"action\":\"conversation\"" rfl,
   c5_no_history_on_failure.2 env0 (.num 5) .attributeError rfl⟩

/-! ## C6 -/

/-- C6: for every decoded instruction object whose dispatch produced at
least one confirmation, the outgoing response is exactly
`\x7baction: instruction_and_conversation, speech: confirmations joined by a
single space in input order, instruction: dispatch.instructions\x7d`, and the
history text equals that joined string. -/
theorem c6_confirmation_response (env : Env) (o : List (String × Json))
    (instrVal : Json) (items : List Json) (confs : List String) (insts : List Json)
    (ha : (Json.obj o).lookup "action" = some (.str "instruction"))
    (hi : ((Json.obj o).lookup "instruction").getD (.arr []) = instrVal)
    (hit : toIterable instrVal = .ok items)
    (hdisp : dispatch env items = .ok (confs, insts))
    (hne : confs.isEmpty = false) :
    chatApi env (.ok (.obj o)) =
      ⟨.obj [("action", .str "instruction_and_conversation"),
             ("speech", .str (String.intercalate " " confs)),
             ("instruction", .arr insts)], 200,
       some (.str (String.intercalate " " confs))⟩ := by
  have hcond : optJeqStr ((Json.obj o).lookup "action") "instruction" = true := by
    rw [ha]; rfl
  simp [chatApi, chatProcess, hcond, hi, hit, hdisp, assemble, hne, bindParam]

/-- Concrete instantiation of `c6_confirmation_response`: one `get_time`
command at the 14:05 clock. -/
theorem c6_confirmation_response_witness :
    chatApi env0 (.ok (.obj [("action", .str "instruction"),
        ("instruction", .arr [.obj [("get_time", .str "current")]])])) =
      ⟨.obj [("action", .str "instruction_and_conversation"),
             ("speech", .str "The current time is 02:05 PM."),
             ("instruction", .arr [])], 200,
       some (.str "The current time is 02:05 PM.")⟩ :=
  c6_confirmation_response env0
    [("action", .str "instruction"), ("instruction", .arr [.obj [("get_time", .str "current")]])]
    (.arr [.obj [("get_time", .str "current")]])
    [.obj [("get_time", .str "current")]]
    ["The current time is 02:05 PM."] [] rfl rfl rfl rfl rfl

/-! ## C7 -/

/-- C7: whenever the dispatch loop completes, its confirmation sequence is
exactly the per-command confirmations in input order, and its instruction
sequence is exactly the per-command client instructions in input order
(commands that contribute none are skipped, order otherwise preserved). -/
theorem c7_dispatch_preserves_order (env : Env) (items : List Json)
    (confs : List String) (insts : List Json)
    (h : dispatch env items = .ok (confs, insts)) :
    confs = items.filterMap (confOf env) ∧ insts = items.filterMap (instOf env) := by
  induction items generalizing confs insts with
  | nil =>
    simp only [dispatch] at h
    cases h
    simp
  | cons i rest ih =>
    simp only [dispatch] at h
    cases h1 : dispatchOne env i with
    | error e => rw [h1] at h; cases h
    | ok r =>
      rw [h1] at h
      cases h2 : dispatch env rest with
      | error e => rw [h2] at h; cases h
      | ok r' =>
        rw [h2] at h
        obtain ⟨rc, ri⟩ := r
        obtain ⟨rc', ri'⟩ := r'
        cases h
        obtain ⟨ihc, ihi⟩ := ih rc' ri' h2
        obtain ⟨l1, l2⟩ := dispatchOne_lengths env i (rc, ri) h1
        simp only at l1 l2
        have hco : confOf env i = rc.head? := by simp [confOf, h1]
        have hio : instOf env i = ri.head? := by simp [instOf, h1]
        constructor
        · rw [List.filterMap_cons, hco, ← ihc]
          rcases rc with _ | ⟨c, _ | ⟨c2, ctail⟩⟩
          · rfl
          · rfl
          · simp at l1
        · rw [List.filterMap_cons, hio, ← ihi]
          rcases ri with _ | ⟨x, _ | ⟨x2, xtail⟩⟩
          · rfl
          · rfl
          · simp at l2

/-- Concrete instantiation of `c7_dispatch_preserves_order` on a mixed
batch: executed commands in order, the pass-through command in position. -/
theorem c7_dispatch_preserves_order_witness :
    ["The current time is 02:05 PM.", "The current year is 2025."] =
      List.filterMap (confOf env0)
        [.obj [("get_time", .str "current")], .obj [("open_website", .str "wikipedia")],
         .obj [("get_date", .str "year")]] ∧
    [.obj [("open_website", .str "wikipedia")]] =
      List.filterMap (instOf env0)
        [.obj [("get_time", .str "current")], .obj [("open_website", .str "wikipedia")],
         .obj [("get_date", .str "year")]] :=
  c7_dispatch_preserves_order env0
    [.obj [("get_time", .str "current")], .obj [("open_website", .str "wikipedia")],
     .obj [("get_date", .str "year")]]
    ["The current time is 02:05 PM.", "The current year is 2025."]
    [.obj [("open_website", .str "wikipedia")]] rfl

/-! ## C8 -/

/-- C8: `get_time` always confirms with the zero-padded 12-hour clock
sentence and no client instruction (whatever the payload), evaluating to
exactly "The current time is 02:05 PM." at a 14:05 clock; `get_date`
confirms per kind — `full_date`, `year`, `last_year`, and any other
payload falls to the ISO-date sentence — never an error. -/
theorem c8_time_date_formats :
    (∀ (env : Env) (v : Json) (rest : List (String × Json)),
      dispatchOne env (.obj (("get_time", v) :: rest)) =
        .ok (["The current time is " ++ fmtTime12 env.clock ++ "."], [])) ∧
    fmtTime12 clock0 = "02:05 PM" ∧
    (∀ (env : Env) (rest : List (String × Json)),
      dispatchOne env (.obj (("get_date", .str "full_date") :: rest)) =
        .ok (["Today is " ++ env.clock.weekdayName ++ ", " ++ env.clock.monthName ++ " " ++
              pad2 env.clock.day ++ ", " ++ pad4 env.clock.year ++ "."], [])) ∧
    (∀ (env : Env) (rest : List (String × Json)),
      dispatchOne env (.obj (("get_date", .str "year") :: rest)) =
        .ok (["The current year is " ++ toString env.clock.year ++ "."], [])) ∧
    (∀ (env : Env) (rest : List (String × Json)),
      dispatchOne env (.obj (("get_date", .str "last_year") :: rest)) =
        .ok (["Last year was " ++ toString (env.clock.year - 1) ++ "."], [])) ∧
    (∀ (env : Env) (v : Json) (rest : List (String × Json)),
      jeqStr v "full_date" = false → jeqStr v "year" = false →
      jeqStr v "last_year" = false →
      dispatchOne env (.obj (("get_date", v) :: rest)) =
        .ok (["The date today is " ++ pad4 env.clock.year ++ "-" ++
              pad2 env.clock.monthNum ++ "-" ++ pad2 env.clock.day ++ "."], [])) := by
  refine ⟨fun env v rest => rfl, rfl, fun env rest => rfl, fun env rest => rfl,
          fun env rest => rfl, ?_⟩
  intro env v rest h1 h2 h3
  simp [dispatchOne, h1, h2, h3, fmtIsoDate, String.append_assoc]

/-- Concrete instantiation of `c8_time_date_formats`: an unrecognized
`get_date` payload falls to the ISO-date sentence at the concrete clock. -/
theorem c8_time_date_formats_witness :
    dispatchOne env0 (.obj [("get_date", .str "tomorrow")]) =
      .ok (["The date today is 2025-10-12."], []) :=
  c8_time_date_formats.2.2.2.2.2 env0 (.str "tomorrow") [] rfl rfl rfl

/-! ## C9 -/

/-- C9: a `play_youtube_direct` or `play_spotify_direct` command confirms
with the provider's returned message, and contributes an
`\x7bopen_url: url\x7d` client instruction exactly when the provider returned a
url; and the full request around an absent-url provider answer yields
`action=instruction_and_conversation`, the fallback message as speech, and
an empty instruction list. -/
theorem c9_provider_url_handling :
    (∀ (env : Env) (v : Json) (rest : List (String × Json)) (u m : String),
      get_youtube_video_url env.yt v = (some u, m) →
      dispatchOne env (.obj (("play_youtube_direct", v) :: rest)) =
        .ok ([m], [.obj [("open_url", .str u)]])) ∧
    (∀ (env : Env) (v : Json) (rest : List (String × Json)) (m : String),
      get_youtube_video_url env.yt v = (none, m) →
      dispatchOne env (.obj (("play_youtube_direct", v) :: rest)) = .ok ([m], [])) ∧
    (∀ (env : Env) (v : Json) (rest : List (String × Json)) (u m : String),
      get_spotify_track_url env.sp v = (some u, m) →
      dispatchOne env (.obj (("play_spotify_direct", v) :: rest)) =
        .ok ([m], [.obj [("open_url", .str u)]])) ∧
    (∀ (env : Env) (v : Json) (rest : List (String × Json)) (m : String),
      get_spotify_track_url env.sp v = (none, m) →
      dispatchOne env (.obj (("play_spotify_direct", v) :: rest)) = .ok ([m], [])) ∧
    (∀ (env : Env) (q : Json) (m : String),
      get_youtube_video_url env.yt q = (none, m) →
      chatApi env (.ok (.obj [("action", .str "instruction"),
          ("instruction", .arr [.obj [("play_youtube_direct", q)]])])) =
        ⟨.obj [("action", .str "instruction_and_conversation"), ("speech", .str m),
               ("instruction", .arr [])], 200, some (.str m)⟩) := by
  refine ⟨?_, ?_, ?_, ?_, ?_⟩
  · intro env v rest u m h
    have hne := yt_url_ne_empty env.yt v u m h
    rw [dispatchOne_yt_eq, h]
    simp [urlTruthy, bne, hne]
  · intro env v rest m h
    rw [dispatchOne_yt_eq, h]
    simp [urlTruthy]
  · intro env v rest u m h
    have hne := sp_url_ne_empty env.sp v u m h
    rw [dispatchOne_sp_eq, h]
    simp [urlTruthy, bne, hne]
  · intro env v rest m h
    rw [dispatchOne_sp_eq, h]
    simp [urlTruthy]
  · intro env q m h
    have h1 : dispatchOne env (.obj [("play_youtube_direct", q)]) = .ok ([m], []) := by
      rw [dispatchOne_yt_eq, h]
      simp [urlTruthy]
    have hd : dispatch env [.obj [("play_youtube_direct", q)]] = .ok ([m], []) := by
      simp [dispatch, h1]
    simp [chatApi, chatProcess, Json.lookup, listLookup, optJeqStr, jeqStr, toIterable,
          hd, assemble, bindParam, intercalate_single]

/-- Concrete instantiation of `c9_provider_url_handling`: providers that
find a result contribute the open_url instruction; providers that do not
contribute only their message, and the full absent-url request matches
the claim's scenario. -/
theorem c9_provider_url_handling_witness :
    dispatchOne envFull (.obj [("play_youtube_direct", .str "lofi")]) =
      .ok (["Playing the top result for 'lofi' on YouTube."],
           [.obj [("open_url", .str "https://www.youtube.com/embed/abc123")]]) ∧
    dispatchOne env0 (.obj [("play_youtube_direct", .str "lofi")]) =
      .ok (["I couldn't find any YouTube videos for 'lofi'."], []) ∧
    dispatchOne envFull (.obj [("play_spotify_direct", .str "x")]) =
      .ok (["Playing 'Song' on Spotify."],
           [.obj [("open_url", .str "https://open.spotify.com/embed/track/t1")]]) ∧
    dispatchOne env0 (.obj [("play_spotify_direct", .str "x")]) =
      .ok (["Spotify API is not configured."], []) ∧
    chatApi env0 (.ok (.obj [("action", .str "instruction"),
        ("instruction", .arr [.obj [("play_youtube_direct", .str "lofi")]])])) =
      ⟨.obj [("action", .str "instruction_and_conversation"),
             ("speech", .str "I couldn't find any YouTube videos for 'lofi'."),
             ("instruction", .arr [])], 200,
       some (.str "I couldn't find any YouTube videos for 'lofi'.")⟩ :=
  ⟨c9_provider_url_handling.1 envFull (.str "lofi") []
      "https://www.youtube.com/embed/abc123" "Playing the top result for 'lofi' on YouTube." rfl,
   c9_provider_url_handling.2.1 env0 (.str "lofi") []
      "I couldn't find any YouTube videos for 'lofi'." rfl,
   c9_provider_url_handling.2.2.1 envFull (.str "x") []
      "https://open.spotify.com/embed/track/t1" "Playing 'Song' on Spotify." rfl,
   c9_provider_url_handling.2.2.2.1 env0 (.str "x") []
      "Spotify API is not configured." rfl,
   c9_provider_url_handling.2.2.2.2 env0 (.str "lofi")
      "I couldn't find any YouTube videos for 'lofi'." rfl⟩

/-! ## C10 -/

/-- C10: the payload of a `get_time` command is ignored entirely — any two
payloads produce identical confirmations and identical, empty client
instruction contributions. -/
theorem c10_get_time_payload_ignored (env : Env) (v1 v2 : Json)
    (r1 r2 : List (String × Json)) :
    dispatchOne env (.obj (("get_time", v1) :: r1)) =
      dispatchOne env (.obj (("get_time", v2) :: r2)) ∧
    dispatchOne env (.obj (("get_time", v1) :: r1)) =
      .ok (["The current time is " ++ fmtTime12 env.clock ++ "."], []) :=
  ⟨rfl, rfl⟩
